import Mathlib

/-!
Verification of the conversation-turn orchestration of the role-based
chatbot (`src/streamlit_app.py`).  The Python program is shallowly
embedded: the role table `ROLE_DEFINITIONS`, the provider wrapper
`call_openai_chat`, the avatar fetch `get_avatar_emoji`, and the body of
the submit button handler in `main` (modelled as `submit`) become
executable Lean functions.  External effects (the OpenAI call, the
EmojiHub HTTP call) are modelled by explicit outcome parameters fed to
the functions that consume them.
-/

set_option maxRecDepth 8192

namespace DemoChatbot

/-- Python `s.strip()`: drop whitespace from both ends (modelled on the
character list of the string, so that it evaluates by reduction). -/
def strip (s : String) : String :=
  ⟨((s.data.dropWhile Char.isWhitespace).reverse.dropWhile Char.isWhitespace).reverse⟩

/-- Python `s.startswith(pre)`. -/
def startswith (s pre : String) : Bool :=
  pre.data.isPrefixOf s.data

/-- Occurrence of the character list `pat` inside a character list. -/
def listContains (pat : List Char) : List Char → Bool
  | [] => pat.isEmpty
  | c :: cs => pat.isPrefixOf (c :: cs) || listContains pat cs

/-- Python `pat in s` substring test. -/
def strContains (s pat : String) : Bool :=
  listContains pat.data s.data

/-- One entry of `ROLE_DEFINITIONS`: the value dict with keys
`short`, `system_prompt`, `example`, `ascii`. -/
structure RoleInfo where
  short : String
  system_prompt : String
  «example» : String
  ascii : String
deriving Repr, DecidableEq

/-- Value of the key "Video Director 🎬" in `ROLE_DEFINITIONS`. -/
def videoDirector : RoleInfo :=
  { short := "Analyzes mood, camera angle, lighting"
    system_prompt :=
      "You are a professional film director. Always analyze ideas in terms of " ++
      "visual storytelling — use camera movement, lighting, framing, editing, " ++
      "and emotional tone to explain your thoughts. Describe concepts as if " ++
      "you are planning a film scene or sequence."
    «example» := "How can I shoot a dream sequence?"
    ascii :=
      "\n  🎬 VIDEO DIRECTOR\n  ─────────────────────\n  [CAM]  ───►   [SCENE]\n  angles · lighting · mood\n" }

/-- Value of the key "Dance Instructor 💃" in `ROLE_DEFINITIONS`. -/
def danceInstructor : RoleInfo :=
  { short := "Suggests movement, rhythm, expression"
    system_prompt :=
      "You are a contemporary dance instructor. You think in terms of movement, " ++
      "rhythm, body weight, breath, and expression. When you answer, give concrete " ++
      "movement ideas and describe how the body should feel."
    «example» := "How can I express sadness through movement?"
    ascii :=
      "\n  💃 DANCE INSTRUCTOR\n  ─────────────────────\n  1·2·3·4 · steps & flow\n  body · breath · emotion\n" }

/-- Value of the key "Fashion Stylist 👗" in `ROLE_DEFINITIONS`. -/
def fashionStylist : RoleInfo :=
  { short := "Explains color trends, materials, silhouette"
    system_prompt :=
      "You are a professional fashion stylist. Give advice about silhouettes, " ++
      "textures, materials, color harmony, and styling details. Imagine you are " ++
      "preparing looks for a photoshoot or red carpet."
    «example» := "What style fits a confident personality?"
    ascii :=
      "\n  👗 FASHION STYLIST\n  ─────────────────────\n  color · fabric · shape\n  runway-ready outfits\n" }

/-- Value of the key "Acting Coach 🎭" in `ROLE_DEFINITIONS`. -/
def actingCoach : RoleInfo :=
  { short := "Teaches emotion delivery, scene breakdown"
    system_prompt :=
      "You are an acting coach. Help performers explore emotion, subtext, and " ++
      "physicality. When you answer, break down the scene beat by beat and give " ++
      "specific exercises or line readings."
    «example» := "How to express fear naturally on stage?"
    ascii :=
      "\n  🎭 ACTING COACH\n  ─────────────────────\n  beats · objectives · subtext\n  voice & body in sync\n" }

/-- Value of the key "Art Curator 🖼️" in `ROLE_DEFINITIONS`. -/
def artCurator : RoleInfo :=
  { short := "Interprets artwork, connects with data"
    system_prompt :=
      "You are a museum art curator. Interpret artworks in terms of composition, " ++
      "color, symbolism, and historical context. Connect visual elements to ideas, " ++
      "emotions, and cultural references."
    «example» := "How does this composition convey emotion?"
    ascii :=
      "\n  🖼️ ART CURATOR\n  ─────────────────────\n  lines · color · symbols\n  stories behind the frame\n" }

/-- The module-level constant `ROLE_DEFINITIONS`, an insertion-ordered
dict from role display name to its definition. -/
def ROLE_DEFINITIONS : List (String × RoleInfo) :=
  [("Video Director 🎬", videoDirector),
   ("Dance Instructor 💃", danceInstructor),
   ("Fashion Stylist 👗", fashionStylist),
   ("Acting Coach 🎭", actingCoach),
   ("Art Curator 🖼️", artCurator)]

/-- The role selector offers `list(ROLE_DEFINITIONS.keys())`. -/
def listRoles : List String := ROLE_DEFINITIONS.map Prod.fst

/-- One element of the `messages` list sent to the chat-completions
endpoint: a dict with a "role" tag and a "content" string. -/
structure ApiMessage where
  role : String
  content : String
deriving Repr, DecidableEq

/-- One entry of `st.session_state.chat_history`: a dict with keys
"role", "content", "role_name", "avatar". -/
structure ChatMessage where
  role : String
  content : String
  role_name : String
  avatar : String
deriving Repr, DecidableEq

/-- Outcome of `client.chat.completions.create`: either the assistant
text of the first choice, or an `OpenAIError` carrying `str(e)`. -/
inductive ProviderResult where
  | ok (text : String)
  | err (msg : String)
deriving Repr, DecidableEq

/-- The fixed mock body substituted by `call_openai_chat` when the
provider error message mentions "insufficient_quota". -/
def MOCK_RESPONSE : String :=
  "[Mock response]\n" ++
  "지금은 OpenAI 크레딧이 부족해서 실제 모델을 호출할 수 없습니다.\n" ++
  "대신, 이 역할이라면 이런 식으로 생각해 볼 수 있어요:\n\n" ++
  "- 장면의 감정, 구도, 리듬을 분리해서 하나씩 분석해 보기\n" ++
  "- 관객이 느끼길 원하는 감정을 먼저 정하고, 거기에 맞게 요소를 조합하기\n" ++
  "- 실제 촬영/퍼포먼스 전에 짧은 스케치를 여러 개 만들어 비교해 보기\n"

/-- The `messages` list `call_openai_chat` assembles: the system prompt,
then (when the history list is non-empty, via `if history:`) the prior
history, then the new user message. -/
def call_openai_chat_messages (system_prompt : String)
    (history : List ApiMessage) (user_message : String) : List ApiMessage :=
  [ApiMessage.mk "system" system_prompt] ++
    (if history.isEmpty then [] else history) ++
    [ApiMessage.mk "user" user_message]

/-- `call_openai_chat`: on provider success, return the text stripped of
surrounding whitespace; on an `OpenAIError` whose text contains
"insufficient_quota", return the mock body; on any other `OpenAIError`,
raise `RuntimeError("OpenAI API error: ...")`, modelled as `Except.error`
with the message of the `RuntimeError`. -/
def call_openai_chat (api_key model : String) (system_prompt : String)
    (user_message : String) (history : List ApiMessage)
    (res : ProviderResult) : Except String String :=
  match api_key, model, system_prompt, user_message, history, res with
  | _, _, _, _, _, .ok text => .ok (strip text)
  | _, _, _, _, _, .err e =>
    if strContains e "insufficient_quota" then .ok MOCK_RESPONSE
    else .error ("OpenAI API error: " ++ e)

/-- Outcome of the EmojiHub HTTP call in `get_avatar_emoji`:
`requests.get` may raise (network error), `raise_for_status` may raise
(bad status), `.json()` may raise (malformed body), or the call succeeds
with `data.get("htmlCode")` being absent or a list of strings. -/
inductive AvatarOutcome where
  | networkError
  | badStatus
  | malformedJson
  | ok (htmlCode : Option (List String))
deriving Repr, DecidableEq

/-- `get_avatar_emoji`: join the returned `htmlCode` fragments when the
call succeeds with a non-empty list, and fall back to the fixed default
glyph in every other case (the `except Exception` branch and the empty
or missing `htmlCode` cases). -/
def get_avatar_emoji : AvatarOutcome → String
  | .networkError => "🧑‍🎨"
  | .badStatus => "🧑‍🎨"
  | .malformedJson => "🧑‍🎨"
  | .ok htmlCode =>
    let html_codes := htmlCode.getD []
    if html_codes.isEmpty then "🧑‍🎨" else String.join html_codes

/-- The clean step of the submit handler:
`"" if user_input.strip().startswith("e.g.,") else user_input.strip()`. -/
def cleanInput (user_input : String) : String :=
  if startswith (strip user_input) "e.g.," then "" else strip user_input

/-- How the submit handler of `main` ended: inline error because the API
key is missing, inline warning because the cleaned input is empty, the
`RuntimeError` shown by `st.error`, or a displayed answer. -/
inductive SubmitError where
  | emptyApiKey
  | emptyInput
  | providerError (msg : String)
deriving Repr, DecidableEq

/-- Result of one press of the "Generate Response" button: the chat
history afterwards, the outcome, and the `messages` list sent to the
provider (`none` when no provider call was made). -/
structure TurnResult where
  history : List ChatMessage
  outcome : Except SubmitError String
  sentMessages : Option (List ApiMessage)
deriving Repr

/-- `history_for_api`: project each stored chat entry to its "role" and
"content" fields before sending it to the provider. -/
def history_for_api (chat_history : List ChatMessage) : List ApiMessage :=
  chat_history.map fun m => ApiMessage.mk m.role m.content

/-- The body of the "Generate Response" handler in `main`: check the API
key, clean the input, call `call_openai_chat` on the projected history,
and on success fetch an avatar and append the user entry (role_name
"You", empty avatar) followed by the assistant entry (current role name,
fetched avatar). -/
def submit (api_key model_name role_name : String) (role_info : RoleInfo)
    (user_input : String) (chat_history : List ChatMessage)
    (res : ProviderResult) (av : AvatarOutcome) : TurnResult :=
  if api_key = "" then
    { history := chat_history, outcome := .error .emptyApiKey, sentMessages := none }
  else
    let clean_input := cleanInput user_input
    if clean_input = "" then
      { history := chat_history, outcome := .error .emptyInput, sentMessages := none }
    else
      let sent := call_openai_chat_messages role_info.system_prompt
        (history_for_api chat_history) clean_input
      match call_openai_chat api_key model_name role_info.system_prompt
          clean_input (history_for_api chat_history) res with
      | .error e =>
        { history := chat_history, outcome := .error (.providerError e),
          sentMessages := some sent }
      | .ok answer =>
        let avatar := get_avatar_emoji av
        { history := chat_history ++
            [ChatMessage.mk "user" clean_input "You" "",
             ChatMessage.mk "assistant" answer role_name avatar],
          outcome := .ok answer,
          sentMessages := some sent }

/-- The "Clear history" button: `st.session_state.chat_history = []`. -/
def clear (chat_history : List ChatMessage) : List ChatMessage :=
  match chat_history with
  | _ => []

/-- Everything one press of the button depends on, for iterating turns. -/
structure TurnInput where
  api_key : String
  model_name : String
  role_name : String
  role_info : RoleInfo
  user_input : String
  res : ProviderResult
  av : AvatarOutcome

/-- The chat history after one button press with input `t`. -/
def runTurn (chat_history : List ChatMessage) (t : TurnInput) : List ChatMessage :=
  (submit t.api_key t.model_name t.role_name t.role_info t.user_input
    chat_history t.res t.av).history

/-- The chat history after a sequence of button presses. -/
def runTurns (chat_history : List ChatMessage) (ts : List TurnInput) : List ChatMessage :=
  ts.foldl runTurn chat_history

/-- Number of entries of the history whose "role" field is `r`. -/
def countRole (chat_history : List ChatMessage) (r : String) : Nat :=
  (chat_history.filter fun m => m.role == r).length

/-! Helper lemmas. -/

theorem call_openai_chat_messages_eq (system_prompt : String)
    (history : List ApiMessage) (user_message : String) :
    call_openai_chat_messages system_prompt history user_message =
      ApiMessage.mk "system" system_prompt ::
        (history ++ [ApiMessage.mk "user" user_message]) := by
  cases history <;> simp [call_openai_chat_messages]

theorem cleanInput_empty (u : String)
    (h : strip u = "" ∨ startswith (strip u) "e.g.," = true) :
    cleanInput u = "" := by
  unfold cleanInput
  rcases h with h | h
  · split <;> simp [h]
  · simp [h]

theorem countRole_append (h1 h2 : List ChatMessage) (r : String) :
    countRole (h1 ++ h2) r = countRole h1 r + countRole h2 r := by
  simp [countRole, List.filter_append]

/-! Theorems for the claims. -/

/-- C10: when the entered API key is empty, the button handler shows an
inline error, performs no provider call, and leaves the chat history
unchanged, whatever the role, input text, or provider state. -/
theorem C10_empty_api_key_no_call (model_name role_name : String)
    (role_info : RoleInfo) (user_input : String) (h : List ChatMessage)
    (res : ProviderResult) (av : AvatarOutcome) :
    submit "" model_name role_name role_info user_input h res av =
      { history := h, outcome := .error .emptyApiKey, sentMessages := none } := by
  unfold submit
  rw [if_pos rfl]

/-- C8: clearing the history unconditionally yields the empty sequence,
is idempotent, and the role catalog is untouched — the ordered key list
and every lookup still return the full fixed role set. -/
theorem C8_clear_idempotent_catalog_fixed :
    (∀ h : List ChatMessage, clear h = []) ∧
    (∀ h : List ChatMessage, clear (clear h) = []) ∧
    listRoles = ["Video Director 🎬", "Dance Instructor 💃", "Fashion Stylist 👗",
      "Acting Coach 🎭", "Art Curator 🖼️"] ∧
    ROLE_DEFINITIONS.lookup "Video Director 🎬" = some videoDirector ∧
    ROLE_DEFINITIONS.lookup "Dance Instructor 💃" = some danceInstructor ∧
    ROLE_DEFINITIONS.lookup "Fashion Stylist 👗" = some fashionStylist ∧
    ROLE_DEFINITIONS.lookup "Acting Coach 🎭" = some actingCoach ∧
    ROLE_DEFINITIONS.lookup "Art Curator 🖼️" = some artCurator :=
  ⟨fun _ => rfl, fun _ => rfl, rfl, by decide, by decide, by decide, by decide, by decide⟩

/-- C9: the avatar fetch is a total function of the call outcome — it
returns the joined htmlCode fragments only on a successful response with
a non-empty list, and the fixed default glyph in every failure case
(network error, bad status, malformed body, missing or empty list). -/
theorem C9_avatar_never_fails :
    (∀ o : AvatarOutcome, get_avatar_emoji o = "🧑‍🎨" ∨
      ∃ codes, codes ≠ [] ∧ o = AvatarOutcome.ok (some codes) ∧
        get_avatar_emoji o = String.join codes) ∧
    get_avatar_emoji .networkError = "🧑‍🎨" ∧
    get_avatar_emoji .badStatus = "🧑‍🎨" ∧
    get_avatar_emoji .malformedJson = "🧑‍🎨" ∧
    get_avatar_emoji (.ok none) = "🧑‍🎨" ∧
    get_avatar_emoji (.ok (some [])) = "🧑‍🎨" := by
  refine ⟨fun o => ?_, rfl, rfl, rfl, rfl, rfl⟩
  match o with
  | .networkError => exact Or.inl rfl
  | .badStatus => exact Or.inl rfl
  | .malformedJson => exact Or.inl rfl
  | .ok none => exact Or.inl rfl
  | .ok (some []) => exact Or.inl rfl
  | .ok (some (c :: cs)) =>
    exact Or.inr ⟨c :: cs, by simp, rfl, by simp [get_avatar_emoji]⟩

/-- C3: for a valid role and an input whose stripped text is empty or
begins with the placeholder marker "e.g.,", the handler reports the
empty-input warning, makes no provider call, and leaves the history
unchanged. -/
theorem C3_empty_input_rejected (api_key model_name role_name : String)
    (role_info : RoleInfo) (user_input : String) (h : List ChatMessage)
    (res : ProviderResult) (av : AvatarOutcome)
    (hrole : ROLE_DEFINITIONS.lookup role_name = some role_info)
    (hkey : api_key ≠ "")
    (hclean : strip user_input = "" ∨ startswith (strip user_input) "e.g.," = true) :
    submit api_key model_name role_name role_info user_input h res av =
      { history := h, outcome := .error .emptyInput, sentMessages := none } := by
  unfold submit
  rw [if_neg hkey]
  simp [cleanInput_empty user_input hclean]

/-- C1: for a valid role and an input whose cleaned text is non-empty, a
turn on which the provider succeeds with text `s` appends exactly two
entries — the user entry carrying the cleaned text, then the assistant
entry carrying the stripped provider text and tagged with the current
role name — and the displayed answer is the stripped provider text. -/
theorem C1_success_appends_two (api_key model_name role_name : String)
    (role_info : RoleInfo) (user_input s : String) (h : List ChatMessage)
    (av : AvatarOutcome)
    (hrole : ROLE_DEFINITIONS.lookup role_name = some role_info)
    (hkey : api_key ≠ "") (ht : cleanInput user_input ≠ "") :
    submit api_key model_name role_name role_info user_input h
        (ProviderResult.ok s) av =
      { history := h ++
          [ChatMessage.mk "user" (cleanInput user_input) "You" "",
           ChatMessage.mk "assistant" (strip s) role_name (get_avatar_emoji av)],
        outcome := .ok (strip s),
        sentMessages := some (call_openai_chat_messages role_info.system_prompt
          (history_for_api h) (cleanInput user_input)) } ∧
    (submit api_key model_name role_name role_info user_input h
        (ProviderResult.ok s) av).history.length = h.length + 2 := by
  have heq : submit api_key model_name role_name role_info user_input h
      (ProviderResult.ok s) av =
      { history := h ++
          [ChatMessage.mk "user" (cleanInput user_input) "You" "",
           ChatMessage.mk "assistant" (strip s) role_name (get_avatar_emoji av)],
        outcome := .ok (strip s),
        sentMessages := some (call_openai_chat_messages role_info.system_prompt
          (history_for_api h) (cleanInput user_input)) } := by
    unfold submit
    rw [if_neg hkey, if_neg ht]
    rfl
  refine ⟨heq, ?_⟩
  rw [heq]
  simp

/-- C4: a provider error whose message mentions "insufficient_quota"
does not surface as an error — the turn still commits two entries and
the assistant text is the fixed mock body, which carries the
"[Mock response]" marker. -/
theorem C4_quota_mock_commits (api_key model_name role_name : String)
    (role_info : RoleInfo) (user_input e : String) (h : List ChatMessage)
    (av : AvatarOutcome)
    (hrole : ROLE_DEFINITIONS.lookup role_name = some role_info)
    (hkey : api_key ≠ "") (ht : cleanInput user_input ≠ "")
    (hq : strContains e "insufficient_quota" = true) :
    submit api_key model_name role_name role_info user_input h
        (ProviderResult.err e) av =
      { history := h ++
          [ChatMessage.mk "user" (cleanInput user_input) "You" "",
           ChatMessage.mk "assistant" MOCK_RESPONSE role_name (get_avatar_emoji av)],
        outcome := .ok MOCK_RESPONSE,
        sentMessages := some (call_openai_chat_messages role_info.system_prompt
          (history_for_api h) (cleanInput user_input)) } ∧
    strContains MOCK_RESPONSE "[Mock response]" = true := by
  refine ⟨?_, by decide⟩
  unfold submit
  rw [if_neg hkey, if_neg ht]
  simp only [call_openai_chat]
  rw [hq]
  rfl

/-- C5: a provider error whose message does not mention
"insufficient_quota" is surfaced as the RuntimeError
"OpenAI API error: ..." and the history is exactly what it was before
the press. -/
theorem C5_provider_error_atomic (api_key model_name role_name : String)
    (role_info : RoleInfo) (user_input e : String) (h : List ChatMessage)
    (av : AvatarOutcome)
    (hrole : ROLE_DEFINITIONS.lookup role_name = some role_info)
    (hkey : api_key ≠ "") (ht : cleanInput user_input ≠ "")
    (hq : strContains e "insufficient_quota" = false) :
    submit api_key model_name role_name role_info user_input h
        (ProviderResult.err e) av =
      { history := h,
        outcome := .error (.providerError ("OpenAI API error: " ++ e)),
        sentMessages := some (call_openai_chat_messages role_info.system_prompt
          (history_for_api h) (cleanInput user_input)) } := by
  unfold submit
  rw [if_neg hkey, if_neg ht]
  simp only [call_openai_chat]
  rw [hq]
  rfl

/-- C6: whenever a provider call is made, the message list sent is the
system message built from the selected role, then every stored history
entry projected to its role tag and text in order, then the new user
message with the cleaned text — the system message always first. -/
theorem C6_request_assembly (api_key model_name role_name : String)
    (role_info : RoleInfo) (user_input : String) (h : List ChatMessage)
    (res : ProviderResult) (av : AvatarOutcome)
    (hrole : ROLE_DEFINITIONS.lookup role_name = some role_info)
    (hkey : api_key ≠ "") (ht : cleanInput user_input ≠ "") :
    (submit api_key model_name role_name role_info user_input h res av).sentMessages =
      some (ApiMessage.mk "system" role_info.system_prompt ::
        (history_for_api h ++ [ApiMessage.mk "user" (cleanInput user_input)])) := by
  unfold submit
  rw [if_neg hkey, if_neg ht, ← call_openai_chat_messages_eq]
  cases hc : call_openai_chat api_key model_name role_info.system_prompt
      (cleanInput user_input) (history_for_api h) res <;> rfl

/-- C7 counterexample: on a concrete successful turn the appended user
entry carries the fixed label "You" in its role_name field, which is not
the empty string — so the user entry does not carry an empty role
name. -/
theorem C7_counterexample_user_label :
    (submit "sk-test" "gpt-4.1-mini" "Video Director 🎬" videoDirector "hi" []
        (ProviderResult.ok "fine") AvatarOutcome.networkError).history.map
        ChatMessage.role_name = ["You", "Video Director 🎬"] ∧
    ("You" : String) ≠ "" := by
  constructor
  · rfl
  · decide

/-- C7 amended: on every committed turn (any call result the wrapper
turns into text, provider success or quota fallback), the user entry
carries the fixed label "You" as its role_name and an empty avatar,
while the assistant entry carries the current role name. -/
theorem C7_amended_entry_tags (api_key model_name role_name : String)
    (role_info : RoleInfo) (user_input a : String) (h : List ChatMessage)
    (res : ProviderResult) (av : AvatarOutcome)
    (hrole : ROLE_DEFINITIONS.lookup role_name = some role_info)
    (hkey : api_key ≠ "") (ht : cleanInput user_input ≠ "")
    (hcall : call_openai_chat api_key model_name role_info.system_prompt
      (cleanInput user_input) (history_for_api h) res = .ok a) :
    (submit api_key model_name role_name role_info user_input h res av).history =
      h ++ [ChatMessage.mk "user" (cleanInput user_input) "You" "",
            ChatMessage.mk "assistant" a role_name (get_avatar_emoji av)] := by
  unfold submit
  rw [if_neg hkey, if_neg ht, hcall]

/-- Every press of the button either leaves the history unchanged or
appends exactly one user entry followed by one assistant entry. -/
theorem submit_history_shape (api_key model_name role_name : String)
    (role_info : RoleInfo) (user_input : String) (h : List ChatMessage)
    (res : ProviderResult) (av : AvatarOutcome) :
    (submit api_key model_name role_name role_info user_input h res av).history = h ∨
    ∃ a, (submit api_key model_name role_name role_info user_input h res av).history =
      h ++ [ChatMessage.mk "user" (cleanInput user_input) "You" "",
            ChatMessage.mk "assistant" a role_name (get_avatar_emoji av)] := by
  unfold submit
  split
  · exact Or.inl rfl
  · dsimp only
    split
    · exact Or.inl rfl
    · split
      · exact Or.inl rfl
      · exact Or.inr ⟨_, rfl⟩

theorem countRole_pair (t a role_name avatar : String) :
    countRole [ChatMessage.mk "user" t "You" "",
      ChatMessage.mk "assistant" a role_name avatar] "user" = 1 ∧
    countRole [ChatMessage.mk "user" t "You" "",
      ChatMessage.mk "assistant" a role_name avatar] "assistant" = 1 := by
  constructor <;> simp [countRole, List.filter]

theorem runTurn_balance (h : List ChatMessage) (t : TurnInput)
    (hbal : countRole h "user" = countRole h "assistant") :
    countRole (runTurn h t) "user" = countRole (runTurn h t) "assistant" := by
  unfold runTurn
  rcases submit_history_shape t.api_key t.model_name t.role_name t.role_info
      t.user_input h t.res t.av with heq | ⟨a, heq⟩
  · rw [heq]; exact hbal
  · rw [heq, countRole_append, countRole_append, hbal,
      (countRole_pair (cleanInput t.user_input) a t.role_name
        (get_avatar_emoji t.av)).1,
      (countRole_pair (cleanInput t.user_input) a t.role_name
        (get_avatar_emoji t.av)).2]

/-- A press whose provider call raises (a non-quota provider error)
leaves the history exactly unchanged. -/
theorem runTurn_failed_unchanged (h : List ChatMessage) (t : TurnInput)
    (e : String) (hres : t.res = ProviderResult.err e)
    (hq : strContains e "insufficient_quota" = false) :
    runTurn h t = h := by
  unfold runTurn submit
  split
  · rfl
  · dsimp only
    split
    · rfl
    · split
      · rfl
      · next a ha =>
        rw [hres] at ha
        simp only [call_openai_chat] at ha
        rw [hq] at ha
        simp at ha

/-- C2: starting from a history with as many user entries as assistant
entries, any sequence of button presses preserves that balance; and a
press whose provider call fails (raises a non-quota error) contributes
zero entries to the history. -/
theorem C2_history_balanced (ts : List TurnInput) (h : List ChatMessage)
    (hbal : countRole h "user" = countRole h "assistant") :
    countRole (runTurns h ts) "user" = countRole (runTurns h ts) "assistant" ∧
    ∀ (h0 : List ChatMessage) (t : TurnInput) (e : String),
      t.res = ProviderResult.err e →
      strContains e "insufficient_quota" = false →
      runTurn h0 t = h0 := by
  refine ⟨?_, fun h0 t e hres hq => runTurn_failed_unchanged h0 t e hres hq⟩
  induction ts generalizing h with
  | nil => exact hbal
  | cons t ts ih =>
    have : runTurns h (t :: ts) = runTurns (runTurn h t) ts := rfl
    rw [this]
    exact ih (runTurn h t) (runTurn_balance h t hbal)

/-- A concrete turn input used to instantiate the balance theorem. -/
def sampleTurn : TurnInput :=
  { api_key := "sk-test", model_name := "gpt-4.1-mini",
    role_name := "Video Director 🎬", role_info := videoDirector,
    user_input := "hi", res := .ok "ok", av := .networkError }

/-- Witness for C1 at a concrete turn. -/
theorem C1_success_appends_two_witness :
    submit "sk-test" "gpt-4.1-mini" "Video Director 🎬" videoDirector
        "How do I light a night scene?" []
        (ProviderResult.ok " Use low-key lighting. ") AvatarOutcome.networkError =
      { history := [] ++
          [ChatMessage.mk "user" (cleanInput "How do I light a night scene?") "You" "",
           ChatMessage.mk "assistant" (strip " Use low-key lighting. ")
             "Video Director 🎬" (get_avatar_emoji AvatarOutcome.networkError)],
        outcome := .ok (strip " Use low-key lighting. "),
        sentMessages := some (call_openai_chat_messages videoDirector.system_prompt
          (history_for_api []) (cleanInput "How do I light a night scene?")) } ∧
    (submit "sk-test" "gpt-4.1-mini" "Video Director 🎬" videoDirector
        "How do I light a night scene?" []
        (ProviderResult.ok " Use low-key lighting. ")
        AvatarOutcome.networkError).history.length =
      ([] : List ChatMessage).length + 2 :=
  C1_success_appends_two "sk-test" "gpt-4.1-mini" "Video Director 🎬" videoDirector
    "How do I light a night scene?" " Use low-key lighting. " []
    AvatarOutcome.networkError (by decide) (by decide) (by decide)

/-- Witness for C2 at a concrete turn sequence. -/
theorem C2_history_balanced_witness :
    countRole (runTurns [] [sampleTurn]) "user" =
      countRole (runTurns [] [sampleTurn]) "assistant" ∧
    ∀ (h0 : List ChatMessage) (t : TurnInput) (e : String),
      t.res = ProviderResult.err e →
      strContains e "insufficient_quota" = false →
      runTurn h0 t = h0 :=
  C2_history_balanced [sampleTurn] [] (by decide)

/-- Witness for C3 at a concrete untouched placeholder input. -/
theorem C3_empty_input_rejected_witness :
    submit "sk-test" "gpt-4.1-mini" "Video Director 🎬" videoDirector
        "  e.g., anything" [] (ProviderResult.ok "x") AvatarOutcome.networkError =
      { history := [], outcome := .error .emptyInput, sentMessages := none } :=
  C3_empty_input_rejected "sk-test" "gpt-4.1-mini" "Video Director 🎬" videoDirector
    "  e.g., anything" [] (ProviderResult.ok "x") AvatarOutcome.networkError
    (by decide) (by decide) (Or.inr (by decide))

/-- Witness for C4 at a concrete quota error. -/
theorem C4_quota_mock_commits_witness :
    submit "sk-test" "gpt-4.1-mini" "Video Director 🎬" videoDirector "hi" []
        (ProviderResult.err
          "Error code: 429 - insufficient_quota: you exceeded your quota")
        AvatarOutcome.networkError =
      { history := [] ++
          [ChatMessage.mk "user" (cleanInput "hi") "You" "",
           ChatMessage.mk "assistant" MOCK_RESPONSE "Video Director 🎬"
             (get_avatar_emoji AvatarOutcome.networkError)],
        outcome := .ok MOCK_RESPONSE,
        sentMessages := some (call_openai_chat_messages videoDirector.system_prompt
          (history_for_api []) (cleanInput "hi")) } ∧
    strContains MOCK_RESPONSE "[Mock response]" = true :=
  C4_quota_mock_commits "sk-test" "gpt-4.1-mini" "Video Director 🎬" videoDirector
    "hi" "Error code: 429 - insufficient_quota: you exceeded your quota" []
    AvatarOutcome.networkError (by decide) (by decide) (by decide) (by decide)

/-- Witness for C5 at a concrete non-quota error. -/
theorem C5_provider_error_atomic_witness :
    submit "sk-test" "gpt-4.1-mini" "Video Director 🎬" videoDirector "hi" []
        (ProviderResult.err "Connection timed out") AvatarOutcome.networkError =
      { history := [],
        outcome := .error (.providerError ("OpenAI API error: " ++ "Connection timed out")),
        sentMessages := some (call_openai_chat_messages videoDirector.system_prompt
          (history_for_api []) (cleanInput "hi")) } :=
  C5_provider_error_atomic "sk-test" "gpt-4.1-mini" "Video Director 🎬" videoDirector
    "hi" "Connection timed out" [] AvatarOutcome.networkError
    (by decide) (by decide) (by decide) (by decide)

/-- Witness for C6 at a concrete turn. -/
theorem C6_request_assembly_witness :
    (submit "sk-test" "gpt-4.1-mini" "Video Director 🎬" videoDirector "hi" []
        (ProviderResult.ok "x") AvatarOutcome.networkError).sentMessages =
      some (ApiMessage.mk "system" videoDirector.system_prompt ::
        (history_for_api [] ++ [ApiMessage.mk "user" (cleanInput "hi")])) :=
  C6_request_assembly "sk-test" "gpt-4.1-mini" "Video Director 🎬" videoDirector
    "hi" [] (ProviderResult.ok "x") AvatarOutcome.networkError
    (by decide) (by decide) (by decide)

/-- Witness for the amended C7 at a concrete committed turn. -/
theorem C7_amended_entry_tags_witness :
    (submit "sk-test" "gpt-4.1-mini" "Video Director 🎬" videoDirector "hi" []
        (ProviderResult.ok " fine ") AvatarOutcome.networkError).history =
      [] ++ [ChatMessage.mk "user" (cleanInput "hi") "You" "",
             ChatMessage.mk "assistant" "fine" "Video Director 🎬"
               (get_avatar_emoji AvatarOutcome.networkError)] :=
  C7_amended_entry_tags "sk-test" "gpt-4.1-mini" "Video Director 🎬" videoDirector
    "hi" "fine" [] (ProviderResult.ok " fine ") AvatarOutcome.networkError
    (by decide) (by decide) (by decide) rfl

end DemoChatbot
